import Mathlib

/-!
Verification development for the code-review frontend.

The definitions below are shallow embeddings of the TypeScript source under
src/frontend/src (pages, components, the typed HTTP client and the UI
preference store).  JavaScript strings are modelled by Lean strings, JS
numbers by Int or Nat, values that may be undefined by Option, and thrown
exceptions by Except.  Third-party library state (the TanStack Query cache)
is modelled by explicit records whose fields mirror the fields the source
code reads.
-/

/-- Review lifecycle status, from the status union type in
src/frontend/src/lib/api.ts (pending, analyzing, completed, failed). -/
inductive ReviewStatus where
  | pending
  | analyzing
  | completed
  | failed
deriving DecidableEq, Repr

/-- ReviewComment record, from src/frontend/src/lib/api.ts. -/
structure ReviewComment where
  id : Int
  review_id : Int
  line_start : Int
  line_end : Int
  content : String
  severity : String
  category : Option String
  suggestion : Option String
  created_at : String
deriving DecidableEq, Repr

/-- ReviewResult record, from src/frontend/src/lib/api.ts. -/
structure ReviewResult where
  id : Int
  review_id : Int
  summary : String
  issues_found : Int
  security_issues : Int
  quality_score : Option Int
  ai_model_used : String
  processing_time_ms : Option Int
  created_at : String
deriving DecidableEq, Repr

/-- CodeReviewDetail record (CodeReview plus comments and result), from
src/frontend/src/lib/api.ts. -/
structure CodeReviewDetail where
  id : Int
  code_content : String
  language : Option String
  filename : Option String
  status : ReviewStatus
  created_at : String
  updated_at : String
  comments : List ReviewComment
  result : Option ReviewResult
deriving DecidableEq, Repr

/-- PRReview record, from src/frontend/src/lib/api.ts. -/
structure PRReview where
  id : Int
  repository_id : Int
  pr_number : Int
  pr_title : Option String
  head_sha : String
  base_branch : Option String
  head_branch : Option String
  status : ReviewStatus
  review_id : Option Int
  github_review_id : Option Int
  issues_found : Int
  files_reviewed : Int
  error_message : Option String
  created_at : String
  completed_at : Option String
deriving DecidableEq, Repr

/-- The slice of TanStack Query per-query state that the source code reads.
data is the last successfully fetched value (kept across later fetch
failures), error is the error of the most recent failed fetch (none once a
fetch succeeds again).  fetchCount and fetchFailureCount record how many
fetches and consecutive failures happened; the source never reads them and
they are carried here so that independence from them can be stated. -/
structure QueryState (α : Type) where
  data : Option α
  error : Option String
  fetchCount : Nat
  fetchFailureCount : Nat
deriving DecidableEq, Repr

/-- The query object passed to a refetchInterval callback; the callbacks in
the source only read query.state. -/
structure Query (α : Type) where
  state : QueryState α
deriving DecidableEq, Repr

/-- refetchInterval callback of the review query in
src/frontend/src/app/reviews/[id]/page.tsx: returns
data?.status === "analyzing" ? 2000 : false.  The JS value false (stop
polling) is modelled by none, a millisecond interval by some. -/
def reviewRefetchInterval (query : Query CodeReviewDetail) : Option Nat :=
  if query.state.data.map (·.status) = some ReviewStatus.analyzing then
    some 2000
  else
    none

/-- refetchInterval callback of the pr-reviews query in the PR detail page
(src/unnamed/part_001): hasAnalyzing = data?.some(r => r.status === "analyzing");
returns hasAnalyzing ? 3000 : false.  An undefined hasAnalyzing is falsy,
modelled by getD false. -/
def prReviewsRefetchInterval (query : Query (List PRReview)) : Option Nat :=
  if (query.state.data.map
        (fun rs => rs.any (fun r => r.status == ReviewStatus.analyzing))).getD false
  then some 3000 else none

/-- canAnalyze in src/frontend/src/app/reviews/[id]/page.tsx:
review.status === "pending" || review.status === "failed". -/
def canAnalyze (review : CodeReviewDetail) : Bool :=
  review.status == ReviewStatus.pending || review.status == ReviewStatus.failed

/-- isAnalyzing in src/frontend/src/app/reviews/[id]/page.tsx:
review.status === "analyzing". -/
def isAnalyzing (review : CodeReviewDetail) : Bool :=
  review.status == ReviewStatus.analyzing

/-- Which conditional sections the success branch of ReviewPage renders:
the Start Analysis panel is rendered under the guard canAnalyze, the
analysis-in-progress banner under the guard isAnalyzing
(src/frontend/src/app/reviews/[id]/page.tsx). -/
structure ReviewPageSections where
  startAnalysisPanel : Bool
  analyzingBanner : Bool
deriving DecidableEq, Repr

/-- The conditional sections ReviewPage renders for a loaded review,
transcribed from the JSX guards of
src/frontend/src/app/reviews/[id]/page.tsx. -/
def reviewPageSections (review : CodeReviewDetail) : ReviewPageSections :=
  { startAnalysisPanel := canAnalyze review
    analyzingBanner := isAnalyzing review }

/-- A sample review used by closed witness statements. -/
def sampleReview (st : ReviewStatus) : CodeReviewDetail :=
  { id := 1
    code_content := "print(1)"
    language := some "python"
    filename := some "main.py"
    status := st
    created_at := "2026-01-01T00:00:00Z"
    updated_at := "2026-01-01T00:00:00Z"
    comments := []
    result := none }

/-- A sample PR review used by closed witness statements. -/
def samplePRReview (st : ReviewStatus) : PRReview :=
  { id := 1
    repository_id := 1
    pr_number := 7
    pr_title := some "Add feature"
    head_sha := "abc1234"
    base_branch := some "main"
    head_branch := some "feature"
    status := st
    review_id := none
    github_review_id := none
    issues_found := 0
    files_reviewed := 0
    error_message := none
    created_at := "2026-01-01T00:00:00Z"
    completed_at := none }

/-- Model of the JavaScript String.prototype.trim: strip leading and
trailing whitespace characters. -/
def jsTrim (s : String) : String :=
  ⟨((s.data.dropWhile Char.isWhitespace).reverse.dropWhile Char.isWhitespace).reverse⟩

/-- CreateReviewRequest record, from src/frontend/src/lib/api.ts. -/
structure CreateReviewRequest where
  code_content : String
  language : Option String
  filename : Option String
deriving DecidableEq, Repr

/-- The request body the home page mutation sends, from the mutationFn of
createReview in src/frontend/src/app/page.tsx: code_content is the editor
content, language and filename fall back from the empty string (falsy) to
undefined. -/
def homePageRequest (code language filename : String) : CreateReviewRequest :=
  { code_content := code
    language := if language == "" then none else some language
    filename := if filename == "" then none else some filename }

/-- handleSubmit from src/frontend/src/app/page.tsx: if (!code.trim())
return; otherwise createReview.mutate().  The result is the createReview
request issued, none when no request is made. -/
def handleSubmit (code language filename : String) : Option CreateReviewRequest :=
  if jsTrim code == "" then none
  else some (homePageRequest code language filename)

/-- disabled attribute of the submit button in src/frontend/src/app/page.tsx:
!code.trim() || createReview.isPending. -/
def homeSubmitDisabled (code : String) (isPending : Bool) : Bool :=
  jsTrim code == "" || isPending

/-- HTTP response as seen by fetchApi; the JSON body is modelled as already
decoded. -/
structure HttpResponse where
  ok : Bool
  status : Nat
  bodyText : String
deriving DecidableEq, Repr

/-- The error thrown by fetchApi, carrying the message string built from the
numeric response status. -/
structure ApiError where
  message : String
deriving DecidableEq, Repr

/-- fetchApi from src/frontend/src/lib/api.ts: if (!response.ok) throw
new Error with the message "API error: " followed by the status; otherwise
return the parsed body.  A thrown exception is modelled by Except.error. -/
def fetchApi (response : HttpResponse) : Except ApiError String :=
  if !response.ok then
    Except.error { message := "API error: " ++ toString response.status }
  else
    Except.ok response.bodyText

/-- The views the review page can render, from the early returns and the
success branch of src/frontend/src/app/reviews/[id]/page.tsx. -/
inductive ReviewPageView where
  | loadingView
  | failedToLoadView
  | reviewView (review : CodeReviewDetail)
deriving DecidableEq, Repr

/-- What useQuery hands the ReviewPage component: data, isLoading and error.
TanStack Query keeps the last successful data when a background refetch
fails and exposes the failure through error, so a state with data present
and error present is reachable while polling. -/
def useQueryResult (q : Query CodeReviewDetail) :
    Option CodeReviewDetail × Bool × Option String :=
  (q.state.data, q.state.data.isNone && q.state.error.isNone, q.state.error)

/-- Render logic of ReviewPage transcribed from
src/frontend/src/app/reviews/[id]/page.tsx: if (isLoading) show the loading
view; if (error || !review) show the failed-to-load view; otherwise show the
review. -/
def renderReviewPage (q : Query CodeReviewDetail) : ReviewPageView :=
  match useQueryResult q with
  | (_, true, _) => ReviewPageView.loadingView
  | (review, false, error) =>
    match error, review with
    | some _, _ => ReviewPageView.failedToLoadView
    | none, none => ReviewPageView.failedToLoadView
    | none, some r => ReviewPageView.reviewView r

/-- C1: the single-review polling callback returns 2000 ms exactly when the
cached data has status analyzing, the PR-review-list callback returns
3000 ms exactly when some cached element has status analyzing, and in every
other situation both return false (stop polling, modelled by none). -/
theorem poll_interval_iff_analyzing
    (q : Query CodeReviewDetail) (p : Query (List PRReview)) :
    (reviewRefetchInterval q = some 2000 ↔
      ∃ d, q.state.data = some d ∧ d.status = ReviewStatus.analyzing) ∧
    (reviewRefetchInterval q = some 2000 ∨ reviewRefetchInterval q = none) ∧
    (prReviewsRefetchInterval p = some 3000 ↔
      ∃ l, p.state.data = some l ∧ ∃ r ∈ l, r.status = ReviewStatus.analyzing) ∧
    (prReviewsRefetchInterval p = some 3000 ∨ prReviewsRefetchInterval p = none) := by
  obtain ⟨⟨qd, qe, qf, qff⟩⟩ := q
  obtain ⟨⟨pd, pe, pf, pff⟩⟩ := p
  refine ⟨?_, ?_, ?_, ?_⟩
  · rcases qd with _ | d
    · simp [reviewRefetchInterval]
    · cases hs : d.status <;> simp [reviewRefetchInterval, hs]
  · unfold reviewRefetchInterval
    split
    · exact Or.inl rfl
    · exact Or.inr rfl
  · rcases pd with _ | l
    · simp [prReviewsRefetchInterval]
    · constructor
      · intro h
        by_cases hA : l.any (fun r => r.status == ReviewStatus.analyzing) = true
        · obtain ⟨r, hr, hst⟩ := List.any_eq_true.mp hA
          exact ⟨l, rfl, r, hr, by simpa using hst⟩
        · exfalso
          have hnone : prReviewsRefetchInterval ⟨⟨some l, pe, pf, pff⟩⟩ = none := by
            simp [prReviewsRefetchInterval, hA]
          rw [hnone] at h
          exact Option.noConfusion h
      · rintro ⟨l', hl', r, hr, hst⟩
        obtain rfl : l = l' := by injection hl'
        have hA : l.any (fun x => x.status == ReviewStatus.analyzing) = true :=
          List.any_eq_true.mpr ⟨r, hr, by simp [hst]⟩
        simp [prReviewsRefetchInterval, hA]
  · unfold prReviewsRefetchInterval
    split
    · exact Or.inl rfl
    · exact Or.inr rfl

/-- Witness for C1: on a concrete query whose cached review is analyzing the
interval is 2000 ms, obtained from the theorem at that input. -/
theorem poll_interval_iff_analyzing_witness :
    reviewRefetchInterval ⟨⟨some (sampleReview ReviewStatus.analyzing), none, 1, 0⟩⟩ = some 2000 :=
  (poll_interval_iff_analyzing
      ⟨⟨some (sampleReview ReviewStatus.analyzing), none, 1, 0⟩⟩
      ⟨⟨none, none, 0, 0⟩⟩).1.mpr
    ⟨sampleReview ReviewStatus.analyzing, rfl, rfl⟩

/-- C6: both refetchInterval callbacks depend only on the cached data: two
query states with equal data yield equal intervals, irrespective of fetch
counts, failure counts or the error field, so there is no backoff and no
jitter. -/
theorem poll_interval_no_backoff
    (q₁ q₂ : Query CodeReviewDetail) (hq : q₁.state.data = q₂.state.data)
    (p₁ p₂ : Query (List PRReview)) (hp : p₁.state.data = p₂.state.data) :
    reviewRefetchInterval q₁ = reviewRefetchInterval q₂ ∧
    prReviewsRefetchInterval p₁ = prReviewsRefetchInterval p₂ := by
  constructor
  · unfold reviewRefetchInterval
    rw [hq]
  · unfold prReviewsRefetchInterval
    rw [hp]

/-- Witness for C6: two concrete query states that differ in fetch count,
failure count and error but share the cached data get the same interval. -/
theorem poll_interval_no_backoff_witness :
    reviewRefetchInterval ⟨⟨some (sampleReview ReviewStatus.analyzing), none, 1, 0⟩⟩ =
      reviewRefetchInterval ⟨⟨some (sampleReview ReviewStatus.analyzing), some "network down", 9, 5⟩⟩ :=
  (poll_interval_no_backoff
      ⟨⟨some (sampleReview ReviewStatus.analyzing), none, 1, 0⟩⟩
      ⟨⟨some (sampleReview ReviewStatus.analyzing), some "network down", 9, 5⟩⟩ rfl
      ⟨⟨none, none, 0, 0⟩⟩ ⟨⟨none, none, 7, 7⟩⟩ rfl).1

/-- C7: the review page renders the Start Analysis panel exactly when the
review status is pending or failed; in particular the panel is never
rendered while the status is analyzing or completed. -/
theorem start_analysis_iff_pending_or_failed (r : CodeReviewDetail) :
    ((reviewPageSections r).startAnalysisPanel = true ↔
      r.status = ReviewStatus.pending ∨ r.status = ReviewStatus.failed) ∧
    (r.status = ReviewStatus.analyzing ∨ r.status = ReviewStatus.completed →
      (reviewPageSections r).startAnalysisPanel = false) := by
  constructor
  · unfold reviewPageSections canAnalyze
    cases r.status <;> simp
  · intro h
    unfold reviewPageSections canAnalyze
    rcases h with h | h <;> rw [h] <;> simp

/-- Witness for C7: on a concrete completed review the Start Analysis panel
is not rendered, obtained from the theorem at that input. -/
theorem start_analysis_iff_pending_or_failed_witness :
    (reviewPageSections (sampleReview ReviewStatus.completed)).startAnalysisPanel = false :=
  (start_analysis_iff_pending_or_failed (sampleReview ReviewStatus.completed)).2
    (Or.inr rfl)

/-- C2: whenever the submitted code is empty or whitespace only, the submit
button is disabled and handleSubmit issues no createReview request; and some
non-whitespace code enables the button when no creation request is in
flight. -/
theorem empty_code_disables_submit :
    (∀ code language filename isPending, jsTrim code = "" →
       homeSubmitDisabled code isPending = true ∧
       handleSubmit code language filename = none) ∧
    (∃ code, jsTrim code ≠ "" ∧ homeSubmitDisabled code false = false ∧
       (handleSubmit code "" "").isSome = true) := by
  constructor
  · intro code language filename isPending h
    constructor
    · simp [homeSubmitDisabled, h]
    · simp [handleSubmit, h]
  · exact ⟨"x = 1", by decide, by decide, by decide⟩

/-- Witness for C2: for the concrete whitespace-only input the button is
disabled and no request is issued, obtained from the theorem at that
input. -/
theorem empty_code_disables_submit_witness :
    homeSubmitDisabled "  \n\t " false = true ∧ handleSubmit "  \n\t " "" "" = none :=
  empty_code_disables_submit.1 "  \n\t " "" "" false (by decide)

/-- C3: fetchApi has exactly two outcomes: on an ok response it returns the
body, on a non-ok response it throws the one error form whose message is
built from the numeric status; there is no third outcome and no other error
shape. -/
theorem fetchApi_binary (r : HttpResponse) :
    (r.ok = true → fetchApi r = Except.ok r.bodyText) ∧
    (r.ok = false →
      fetchApi r = Except.error ⟨"API error: " ++ toString r.status⟩) ∧
    ((∃ b, fetchApi r = Except.ok b) ∨
     (∃ e, fetchApi r = Except.error e ∧
        e.message = "API error: " ++ toString r.status)) := by
  refine ⟨?_, ?_, ?_⟩
  · intro h
    simp [fetchApi, h]
  · intro h
    simp [fetchApi, h]
  · cases h : r.ok
    · exact Or.inr ⟨⟨"API error: " ++ toString r.status⟩, by simp [fetchApi, h], rfl⟩
    · exact Or.inl ⟨r.bodyText, by simp [fetchApi, h]⟩

/-- Witness for C3: on a concrete 500 response fetchApi throws the error
whose message carries the status, obtained from the theorem at that
input. -/
theorem fetchApi_binary_witness :
    fetchApi ⟨false, 500, ""⟩ = Except.error ⟨"API error: " ++ toString 500⟩ :=
  (fetchApi_binary ⟨false, 500, ""⟩).2.1 rfl

/-- A reachable query state while polling an analyzing review: the last
fetched review is cached, the latest background refetch failed. -/
def pollFailureState : Query CodeReviewDetail :=
  ⟨⟨some (sampleReview ReviewStatus.analyzing), some "server unreachable", 3, 3⟩⟩

/-- Counterexample to C4 as stated: with an analyzing review cached and a
failed refetch recorded, the page renders the failed-to-load view, not the
cached review, even though the polling callback still returns 2000 ms. -/
theorem poll_failure_counterexample :
    renderReviewPage pollFailureState ≠
      ReviewPageView.reviewView (sampleReview ReviewStatus.analyzing) ∧
    renderReviewPage pollFailureState = ReviewPageView.failedToLoadView ∧
    reviewRefetchInterval pollFailureState = some 2000 := by
  decide

/-- C4 amended: while the cached review is analyzing, a failed poll re-fetch
keeps the cached data and the interval callback still returns 2000 ms from
that data, so polling retries on the next interval; but the page renders the
generic failure view while the query carries an error, rather than
continuing to show the last fetched representation. -/
theorem poll_failure_amended (q : Query CodeReviewDetail) (r : CodeReviewDetail)
    (hd : q.state.data = some r) (hs : r.status = ReviewStatus.analyzing)
    (he : q.state.error.isSome = true) :
    reviewRefetchInterval q = some 2000 ∧
    renderReviewPage q = ReviewPageView.failedToLoadView := by
  obtain ⟨⟨qd, qe, qf, qff⟩⟩ := q
  have hd' : qd = some r := hd
  have he' : qe.isSome = true := he
  subst hd'
  rcases qe with _ | e
  · simp at he'
  · constructor
    · simp [reviewRefetchInterval, hs]
    · rfl

/-- Witness for C4 amended: the concrete failed-poll state still polls at
2000 ms and renders the failure view, obtained from the theorem at that
input. -/
theorem poll_failure_amended_witness :
    reviewRefetchInterval pollFailureState = some 2000 ∧
    renderReviewPage pollFailureState = ReviewPageView.failedToLoadView :=
  poll_failure_amended pollFailureState (sampleReview ReviewStatus.analyzing) rfl rfl rfl

/-- One element of a TanStack Query key: the source uses strings and
numbers. -/
inductive QueryKeyPart where
  | s (v : String)
  | n (v : Int)
deriving DecidableEq, Repr

/-- A query key as used by useQuery and invalidateQueries. -/
abbrev QueryKey : Type := List QueryKeyPart

/-- Key of the review query on the review page:
["review", reviewId] (src/frontend/src/app/reviews/[id]/page.tsx). -/
def reviewQueryKey (reviewId : Int) : QueryKey :=
  [QueryKeyPart.s "review", QueryKeyPart.n reviewId]

/-- Key of the pr-reviews query on the PR detail page:
["pr-reviews", owner, repo, prNumber] (src/unnamed/part_001). -/
def prReviewsQueryKey (owner repo : String) (prNumber : Int) : QueryKey :=
  [QueryKeyPart.s "pr-reviews", QueryKeyPart.s owner, QueryKeyPart.s repo,
    QueryKeyPart.n prNumber]

/-- Key of the pulls query on the pulls page: ["pulls", owner, repo]
(src/frontend/src/app/github/[owner]/[repo]/pulls/page.tsx). -/
def pullsQueryKey (owner repo : String) : QueryKey :=
  [QueryKeyPart.s "pulls", QueryKeyPart.s owner, QueryKeyPart.s repo]

/-- Key of the installations query on the GitHub landing page:
["github-installations"]. -/
def installationsQueryKey : QueryKey :=
  [QueryKeyPart.s "github-installations"]

/-- Keys passed to invalidateQueries by the onSuccess handler of
analyzeMutation in src/frontend/src/app/reviews/[id]/page.tsx. -/
def analyzeMutationInvalidates (reviewId : Int) : List QueryKey :=
  [reviewQueryKey reviewId]

/-- Keys passed to invalidateQueries by the onSuccess handler of
reviewMutation in the PR detail page (src/unnamed/part_001). -/
def prDetailReviewMutationInvalidates (owner repo : String) (prNumber : Int) :
    List QueryKey :=
  [prReviewsQueryKey owner repo prNumber]

/-- Keys passed to invalidateQueries by the onSuccess handler of
reviewMutation in src/frontend/src/app/github/[owner]/[repo]/pulls/page.tsx. -/
def pullsReviewMutationInvalidates (owner repo : String) : List QueryKey :=
  [pullsQueryKey owner repo]

/-- Keys passed to invalidateQueries by the onSuccess handler of
syncMutation on the GitHub landing page. -/
def syncMutationInvalidates : List QueryKey :=
  [installationsQueryKey]

/-- Keys invalidated by reviewMutation in
src/frontend/src/app/github/[owner]/[repo]/page.tsx (the file-review
trigger): the mutation is declared with a mutationFn only and no onSuccess
handler, so it invalidates nothing. -/
def repoFileReviewMutationInvalidates (_owner _repo _path : String) : List QueryKey :=
  []

/-- A cache entry: a query key together with whether the entry is stale
(a stale entry is refetched on its next read). -/
structure CacheEntry where
  key : QueryKey
  stale : Bool
deriving DecidableEq, Repr

/-- invalidateQueries with a queryKey filter marks every cached query whose
key extends the given key as stale (TanStack prefix matching). -/
def invalidateQueries (filterKey : QueryKey) (cache : List CacheEntry) :
    List CacheEntry :=
  cache.map (fun e =>
    if List.isPrefixOf filterKey e.key then { e with stale := true } else e)

/-- Run every invalidation a mutation requests against the cache. -/
def applyInvalidations (keys : List QueryKey) (cache : List CacheEntry) :
    List CacheEntry :=
  keys.foldl (fun c k => invalidateQueries k c) cache

/-- After invalidateQueries on a key, the entry for that exact key is
stale. -/
theorem invalidateQueries_marks_stale (k : QueryKey) (cache : List CacheEntry)
    (e : CacheEntry) (he : e ∈ invalidateQueries k cache) (hk : e.key = k) :
    e.stale = true := by
  unfold invalidateQueries at he
  obtain ⟨e₀, he₀, rfl⟩ := List.mem_map.mp he
  by_cases hp : List.isPrefixOf k e₀.key
  · simp [hp]
  · exfalso
    simp only [hp, if_neg, Bool.false_eq_true, ite_false] at hk
    exact hp (hk ▸ List.isPrefixOf_iff_prefix.mpr (List.prefix_refl _))

/-- Counterexample to C5 as stated: the file-review mutation on the repo
page invalidates no key at all, so a fresh cached query stays fresh after
the mutation succeeds. -/
theorem file_review_no_invalidation_counterexample :
    repoFileReviewMutationInvalidates "octo" "hello-world" "src/main.py" = [] ∧
    applyInvalidations
        (repoFileReviewMutationInvalidates "octo" "hello-world" "src/main.py")
        [⟨reviewQueryKey 1, false⟩] =
      [⟨reviewQueryKey 1, false⟩] := by
  constructor
  · rfl
  · rfl

/-- C5 amended: the analyze, PR-review (detail and pulls pages) and
sync-installations mutations each invalidate the cache entry of the query
they affect on success, so its next read refetches; the file-review
mutation on the repo page is declared without an onSuccess handler and
invalidates nothing. -/
theorem mutation_invalidation_amended
    (reviewId : Int) (owner repo : String) (prNumber : Int)
    (cache : List CacheEntry) :
    (∀ e ∈ applyInvalidations (analyzeMutationInvalidates reviewId) cache,
       e.key = reviewQueryKey reviewId → e.stale = true) ∧
    (∀ e ∈ applyInvalidations
        (prDetailReviewMutationInvalidates owner repo prNumber) cache,
       e.key = prReviewsQueryKey owner repo prNumber → e.stale = true) ∧
    (∀ e ∈ applyInvalidations (pullsReviewMutationInvalidates owner repo) cache,
       e.key = pullsQueryKey owner repo → e.stale = true) ∧
    (∀ e ∈ applyInvalidations syncMutationInvalidates cache,
       e.key = installationsQueryKey → e.stale = true) ∧
    (∀ path, applyInvalidations
        (repoFileReviewMutationInvalidates owner repo path) cache = cache) := by
  refine ⟨?_, ?_, ?_, ?_, fun _ => rfl⟩
  · intro e he hk
    exact invalidateQueries_marks_stale _ cache e he hk
  · intro e he hk
    exact invalidateQueries_marks_stale _ cache e he hk
  · intro e he hk
    exact invalidateQueries_marks_stale _ cache e he hk
  · intro e he hk
    exact invalidateQueries_marks_stale _ cache e he hk

/-- Witness for C5 amended: in a concrete cache holding the review query
for id 5, the analyze mutation leaves that entry stale, obtained from the
theorem at that input. -/
theorem mutation_invalidation_amended_witness :
    (⟨reviewQueryKey 5, true⟩ : CacheEntry).stale = true :=
  (mutation_invalidation_amended 5 "octo" "hello-world" 1
      [⟨reviewQueryKey 5, false⟩]).1
    ⟨reviewQueryKey 5, true⟩ (by decide) rfl

/-- A file-tree item, from the FileTreeItem interface in the FileTree
component (src/unnamed/part_002). -/
structure FileTreeItem where
  name : String
  path : String
  type : String
  size : Option Int
deriving DecidableEq, Repr

/-- Lexicographic comparison of character lists by code point, the model of
String.prototype.localeCompare.  Written on the character lists so that it
evaluates by kernel reduction. -/
def charListCompare : List Char → List Char → Ordering
  | [], [] => Ordering.eq
  | [], _ :: _ => Ordering.lt
  | _ :: _, [] => Ordering.gt
  | a :: as, b :: bs =>
    if a.toNat < b.toNat then Ordering.lt
    else if b.toNat < a.toNat then Ordering.gt
    else charListCompare as bs

/-- Model of String.prototype.localeCompare as the lexicographic order on
strings: negative when a orders before b, positive when after, zero on
ties. -/
def localeCompare (a b : String) : Int :=
  match charListCompare a.data b.data with
  | Ordering.lt => -1
  | Ordering.eq => 0
  | Ordering.gt => 1

theorem charListCompare_swap : ∀ (as bs : List Char),
    charListCompare bs as = (charListCompare as bs).swap
  | [], [] => rfl
  | [], _ :: _ => rfl
  | _ :: _, [] => rfl
  | a :: as, b :: bs => by
    simp only [charListCompare]
    by_cases h1 : a.toNat < b.toNat <;> by_cases h2 : b.toNat < a.toNat <;>
      simp [h1, h2, Ordering.swap]
    · exact (Nat.lt_asymm h1 h2).elim
    · exact charListCompare_swap as bs

theorem charListCompare_ne_gt_trans :
    ∀ (as bs cs : List Char), charListCompare as bs ≠ Ordering.gt →
      charListCompare bs cs ≠ Ordering.gt → charListCompare as cs ≠ Ordering.gt
  | [], _, cs => by
    intro _ _
    cases cs <;> simp [charListCompare]
  | _ :: _, [], _ => by
    intro hab _
    simp [charListCompare] at hab
  | _ :: _, _ :: _, [] => by
    intro _ hbc
    simp [charListCompare] at hbc
  | a :: as, b :: bs, c :: cs => by
    intro hab hbc
    simp only [charListCompare] at hab hbc ⊢
    by_cases h1 : a.toNat < b.toNat <;> by_cases h2 : b.toNat < a.toNat <;>
      by_cases h3 : b.toNat < c.toNat <;> by_cases h4 : c.toNat < b.toNat <;>
        by_cases h5 : a.toNat < c.toNat <;> by_cases h6 : c.toNat < a.toNat <;>
          simp [h1, h2, h3, h4, h5, h6] at hab hbc ⊢ <;>
            first
              | omega
              | exact charListCompare_ne_gt_trans as bs cs hab hbc

theorem localeCompare_nonpos_iff (a b : String) :
    localeCompare a b ≤ 0 ↔ charListCompare a.data b.data ≠ Ordering.gt := by
  unfold localeCompare
  cases h : charListCompare a.data b.data <;> simp [h]

theorem localeCompare_total (a b : String) :
    localeCompare a b ≤ 0 ∨ localeCompare b a ≤ 0 := by
  rw [localeCompare_nonpos_iff, localeCompare_nonpos_iff]
  have hswap := charListCompare_swap a.data b.data
  cases h : charListCompare a.data b.data <;> rw [h] at hswap <;>
    simp [h, hswap, Ordering.swap]

theorem localeCompare_trans (a b c : String) (hab : localeCompare a b ≤ 0)
    (hbc : localeCompare b c ≤ 0) : localeCompare a c ≤ 0 := by
  rw [localeCompare_nonpos_iff] at hab hbc ⊢
  exact charListCompare_ne_gt_trans _ _ _ hab hbc

/-- The comparator passed to sort in the FileTree component
(src/unnamed/part_002): directories first, then localeCompare on names. -/
def fileTreeCompare (a b : FileTreeItem) : Int :=
  if a.type == "dir" && !(b.type == "dir") then -1
  else if !(a.type == "dir") && b.type == "dir" then 1
  else localeCompare a.name b.name

/-- The ordering induced by the comparator: a sorts no later than b when
the comparator is nonpositive. -/
def fileTreeRel (a b : FileTreeItem) : Prop := fileTreeCompare a b ≤ 0

instance : DecidableRel fileTreeRel := fun a b =>
  inferInstanceAs (Decidable (fileTreeCompare a b ≤ 0))

theorem fileTreeRel_iff (a b : FileTreeItem) :
    fileTreeRel a b ↔
      ((a.type = "dir" ∧ b.type ≠ "dir") ∨
       ((a.type = "dir" ↔ b.type = "dir") ∧ localeCompare a.name b.name ≤ 0)) := by
  unfold fileTreeRel fileTreeCompare
  by_cases ha : a.type = "dir" <;> by_cases hb : b.type = "dir" <;>
    simp [ha, hb]

instance : IsTotal FileTreeItem fileTreeRel := by
  constructor
  intro a b
  rw [fileTreeRel_iff, fileTreeRel_iff]
  rcases localeCompare_total a.name b.name with h | h <;>
    by_cases ha : a.type = "dir" <;> by_cases hb : b.type = "dir" <;>
      simp [ha, hb, h]

instance : IsTrans FileTreeItem fileTreeRel := by
  constructor
  intro a b c hab hbc
  rw [fileTreeRel_iff] at hab hbc ⊢
  by_cases ha : a.type = "dir" <;> by_cases hb : b.type = "dir" <;>
    by_cases hc : c.type = "dir" <;> simp [ha, hb, hc] at hab hbc ⊢ <;>
      exact localeCompare_trans _ _ _ hab hbc

/-- sortedItems in the FileTree component (src/unnamed/part_002): a sorted
copy of the incoming items, [...items].sort(comparator), modelled by a
stable sort under the ordering the comparator induces. -/
def sortedFileTreeItems (items : List FileTreeItem) : List FileTreeItem :=
  List.insertionSort fileTreeRel items

/-- C8: the FileTree component displays a permutation of its input in which
every directory precedes every non-directory, and any two items of the same
group (both directories or both non-directories) appear in ascending
locale-compare order of name. -/
theorem fileTree_display_sorted (items : List FileTreeItem) :
    (sortedFileTreeItems items).Perm items ∧
    (∀ i j : Fin (sortedFileTreeItems items).length, (i : ℕ) < (j : ℕ) →
       ((sortedFileTreeItems items).get j).type = "dir" →
       ((sortedFileTreeItems items).get i).type = "dir") ∧
    (∀ i j : Fin (sortedFileTreeItems items).length, (i : ℕ) < (j : ℕ) →
       (((sortedFileTreeItems items).get i).type = "dir" ↔
         ((sortedFileTreeItems items).get j).type = "dir") →
       localeCompare ((sortedFileTreeItems items).get i).name
         ((sortedFileTreeItems items).get j).name ≤ 0) := by
  have hsorted : List.Sorted fileTreeRel (sortedFileTreeItems items) :=
    List.sorted_insertionSort fileTreeRel items
  have hpw := List.pairwise_iff_get.mp hsorted
  refine ⟨List.perm_insertionSort fileTreeRel items, ?_, ?_⟩
  · intro i j hij hjd
    have hrel := hpw i j hij
    rw [fileTreeRel_iff] at hrel
    by_contra hid
    rcases hrel with ⟨_, h2⟩ | ⟨hiff, _⟩
    · exact h2 hjd
    · exact hid (hiff.mpr hjd)
  · intro i j hij hiff
    have hrel := hpw i j hij
    rw [fileTreeRel_iff] at hrel
    rcases hrel with ⟨h1, h2⟩ | ⟨_, hname⟩
    · exact absurd (hiff.mp h1) h2
    · exact hname

/-- A concrete directory listing used by the C8 witness. -/
def demoTreeItems : List FileTreeItem :=
  [⟨"zeta.py", "zeta.py", "file", some 10⟩,
   ⟨"alpha", "alpha", "dir", none⟩,
   ⟨"beta.md", "beta.md", "file", some 5⟩]

/-- Witness for C8: on the concrete listing the displayed list is a
permutation of the input and the two files appear in ascending name order,
obtained from the theorem at that input. -/
theorem fileTree_display_sorted_witness :
    (sortedFileTreeItems demoTreeItems).Perm demoTreeItems ∧
    localeCompare ((sortedFileTreeItems demoTreeItems).get ⟨1, by decide⟩).name
      ((sortedFileTreeItems demoTreeItems).get ⟨2, by decide⟩).name ≤ 0 :=
  ⟨(fileTree_display_sorted demoTreeItems).1,
   (fileTree_display_sorted demoTreeItems).2.2 ⟨1, by decide⟩ ⟨2, by decide⟩
     (by decide) (by decide)⟩

/-- Model of String.prototype.toLowerCase: lower-case every character. -/
def jsToLowerCase (s : String) : String :=
  ⟨s.data.map Char.toLower⟩

/-- languageMap from mapLanguage in
src/frontend/src/components/CodeEditor.tsx, in source order. -/
def languageMap : List (String × String) :=
  [("python", "python"), ("py", "python"),
   ("javascript", "javascript"), ("js", "javascript"),
   ("typescript", "typescript"), ("ts", "typescript"),
   ("tsx", "typescript"), ("jsx", "javascript"),
   ("java", "java"), ("go", "go"), ("golang", "go"),
   ("rust", "rust"), ("rs", "rust"),
   ("c", "c"), ("cpp", "cpp"), ("c++", "cpp"),
   ("csharp", "csharp"), ("cs", "csharp"),
   ("ruby", "ruby"), ("rb", "ruby"),
   ("php", "php"), ("html", "html"), ("css", "css"),
   ("json", "json"), ("yaml", "yaml"), ("yml", "yaml"),
   ("markdown", "markdown"), ("md", "markdown"),
   ("sql", "sql"), ("shell", "shell"), ("bash", "shell"), ("sh", "shell")]

/-- The property names a plain object literal inherits from
Object.prototype; indexing the object with one of these yields the
inherited member (a function, or an object for the __proto__ accessor),
which is truthy, not nullish and not a string, rather than undefined. -/
def objectPrototypeKeys : List String :=
  ["constructor", "hasOwnProperty", "isPrototypeOf", "propertyIsEnumerable",
   "toLocaleString", "toString", "valueOf", "__proto__",
   "__defineGetter__", "__defineSetter__", "__lookupGetter__",
   "__lookupSetter__"]

/-- The runtime value mapLanguage returns: a string, or a non-string member
inherited from Object.prototype (possible because the source indexes a
plain object literal, whose prototype chain is live). -/
inductive MapLanguageResult where
  | id (s : String)
  | inheritedMember (name : String)
deriving DecidableEq, Repr

/-- JavaScript indexing languageMap[key] on the object literal of
src/frontend/src/components/CodeEditor.tsx: an own data property when key
is a table key, the inherited Object.prototype member when key names one,
undefined (none) otherwise. -/
def languageMapIndex (key : String) : Option MapLanguageResult :=
  match languageMap.lookup key with
  | some v => some (MapLanguageResult.id v)
  | none =>
    if key ∈ objectPrototypeKeys then
      some (MapLanguageResult.inheritedMember key)
    else none

/-- mapLanguage from src/frontend/src/components/CodeEditor.tsx:
languageMap[language.toLowerCase()] ?? "plaintext".  The nullish coalescing
fires only when the indexing yields undefined, so an inherited
Object.prototype member is returned as is. -/
def mapLanguage (language : String) : MapLanguageResult :=
  (languageMapIndex (jsToLowerCase language)).getD (MapLanguageResult.id "plaintext")

/-- The Monaco language identifiers mapLanguage can produce as strings. -/
def monacoLanguageIds : List String :=
  "plaintext" :: languageMap.map Prod.snd

theorem lookup_snd_mem {l : List (String × String)} {k v : String}
    (h : l.lookup k = some v) : v ∈ l.map Prod.snd := by
  induction l with
  | nil => simp [List.lookup] at h
  | cons p t ih =>
    rw [List.lookup] at h
    by_cases hk : (k == p.1) = true
    · rw [hk] at h
      simp only [Option.some.injEq] at h
      simp [← h]
    · rw [Bool.not_eq_true] at hk
      rw [hk] at h
      simp [ih h]

theorem monaco_ids_fixed :
    ∀ v ∈ monacoLanguageIds, mapLanguage v = MapLanguageResult.id v := by
  decide

/-- Counterexample to C9 as stated: for the inputs constructor and
__proto__ the lowercased input is not a table key, yet mapLanguage returns
the truthy inherited Object.prototype member rather than the plaintext
identifier, so it does not return a Monaco identifier string there. -/
theorem mapLanguage_prototype_counterexample :
    mapLanguage "constructor" = MapLanguageResult.inheritedMember "constructor" ∧
    mapLanguage "constructor" ≠ MapLanguageResult.id "plaintext" ∧
    mapLanguage "__proto__" = MapLanguageResult.inheritedMember "__proto__" := by
  decide

/-- C9 amended: for every input whose lowercased form is not an inherited
Object.prototype property name, mapLanguage returns a Monaco identifier
string (the table value of the lowercased input, or plaintext when it is
not a key), and whenever mapLanguage yields an identifier string, applying
mapLanguage to it yields the same identifier.  For a lowercased input that
names an inherited Object.prototype member, mapLanguage instead returns
that non-string member, as the counterexample shows. -/
theorem mapLanguage_amended (s : String)
    (h : jsToLowerCase s ∉ objectPrototypeKeys) :
    (∃ v, mapLanguage s = MapLanguageResult.id v ∧ v ∈ monacoLanguageIds) ∧
    (languageMap.lookup (jsToLowerCase s) = none →
      mapLanguage s = MapLanguageResult.id "plaintext") ∧
    (∀ v, mapLanguage s = MapLanguageResult.id v →
      mapLanguage v = MapLanguageResult.id v) := by
  refine ⟨?_, ?_, ?_⟩
  · cases hl : languageMap.lookup (jsToLowerCase s) with
    | some v =>
      refine ⟨v, ?_, List.mem_cons_of_mem _ (lookup_snd_mem hl)⟩
      simp [mapLanguage, languageMapIndex, hl]
    | none =>
      refine ⟨"plaintext", ?_, by simp [monacoLanguageIds]⟩
      simp [mapLanguage, languageMapIndex, hl, h]
  · intro hl
    simp [mapLanguage, languageMapIndex, hl, h]
  · intro v hv
    have hvmem : v ∈ monacoLanguageIds := by
      cases hl : languageMap.lookup (jsToLowerCase s) with
      | some w =>
        have hw : mapLanguage s = MapLanguageResult.id w := by
          simp [mapLanguage, languageMapIndex, hl]
        rw [hw] at hv
        injection hv with hwv
        exact hwv ▸ List.mem_cons_of_mem _ (lookup_snd_mem hl)
      | none =>
        have hw : mapLanguage s = MapLanguageResult.id "plaintext" := by
          simp [mapLanguage, languageMapIndex, hl, h]
        rw [hw] at hv
        injection hv with hwv
        rw [← hwv]
        simp [monacoLanguageIds]
    exact monaco_ids_fixed v hvmem

/-- Witness for C9 amended: a concrete unknown language falls back to
plaintext and a concrete table output is a fixed point, obtained from the
theorem at those inputs. -/
theorem mapLanguage_amended_witness :
    mapLanguage "Fortran" = MapLanguageResult.id "plaintext" ∧
    mapLanguage "typescript" = MapLanguageResult.id "typescript" :=
  ⟨(mapLanguage_amended "Fortran" (by decide)).2.1 (by decide),
   (mapLanguage_amended "TSX" (by decide)).2.2 "typescript" (by decide)⟩

/-- JSON values, the runtime model for what JSON.parse can yield and
JSON.stringify can consume.  The persistence layer is modelled at this
level: stringify then parse of a value is the identity on it, and a stored
string that is not valid JSON is a parse result of none. -/
inductive JsonVal where
  | null
  | str (s : String)
  | num (n : Int)
  | jbool (b : Bool)
  | obj (fields : List (String × JsonVal))
deriving Repr

/-- The UI store state from src/frontend/src/stores/reviewStore.ts.  The
TypeScript annotations are erased at runtime and the restore path assigns
parsed JSON values unvalidated, so theme and editorFontSize are carried as
runtime JSON values. -/
structure UIState where
  theme : JsonVal
  editorFontSize : JsonVal
  sidebarOpen : Bool
  selectedIssueId : Option Int

/-- The initial store state from the create call in
src/frontend/src/stores/reviewStore.ts: theme dark, editorFontSize 14,
sidebarOpen true, selectedIssueId null. -/
def defaultUIState : UIState :=
  { theme := JsonVal.str "dark"
    editorFontSize := JsonVal.num 14
    sidebarOpen := true
    selectedIssueId := none }

/-- The value the persistence subscriber writes,
JSON.stringify({ theme: state.theme, editorFontSize: state.editorFontSize }),
from src/frontend/src/stores/reviewStore.ts. -/
def persistedPrefs (s : UIState) : JsonVal :=
  JsonVal.obj [("theme", s.theme), ("editorFontSize", s.editorFontSize)]

/-- JavaScript property access parsed.k: the field of an object, undefined
(none) on any other value. -/
def jsGetField : JsonVal → String → Option JsonVal
  | JsonVal.obj fields, k => fields.lookup k
  | _, _ => none

/-- The JavaScript nullish coalescing operator v ?? d: d when v is undefined
or null, v otherwise. -/
def jsNullish : Option JsonVal → JsonVal → JsonVal
  | none, d => d
  | some JsonVal.null, d => d
  | some v, _ => v

/-- The restore step from src/frontend/src/stores/reviewStore.ts: on an
unparseable stored string (none) the catch block leaves the state unchanged;
on a parsed null the property access throws and the catch block leaves the
state unchanged; otherwise setState merges theme and editorFontSize, each
falling back to its default through the nullish coalescing operator. -/
def restorePrefs (stored : Option JsonVal) (s : UIState) : UIState :=
  match stored with
  | none => s
  | some JsonVal.null => s
  | some parsed =>
    { s with
      theme := jsNullish (jsGetField parsed "theme") (JsonVal.str "dark")
      editorFontSize :=
        jsNullish (jsGetField parsed "editorFontSize") (JsonVal.num 14) }

/-- C10: for every store state with a string theme and a numeric font size
(the store state space), restoring the value written by the persistence
subscriber restores that theme and font size, and when the stored string is
not valid JSON the restore step leaves the default state unchanged. -/
theorem ui_prefs_roundtrip (s : UIState) (t : String) (n : Int)
    (ht : s.theme = JsonVal.str t) (hn : s.editorFontSize = JsonVal.num n) :
    (restorePrefs (some (persistedPrefs s)) defaultUIState).theme = s.theme ∧
    (restorePrefs (some (persistedPrefs s)) defaultUIState).editorFontSize =
      s.editorFontSize ∧
    restorePrefs none defaultUIState = defaultUIState := by
  obtain ⟨th, fs, sb, si⟩ := s
  simp only at ht hn
  subst ht hn
  exact ⟨rfl, rfl, rfl⟩

/-- A concrete store state used by the C10 witness. -/
def demoUIState : UIState :=
  { theme := JsonVal.str "light"
    editorFontSize := JsonVal.num 16
    sidebarOpen := false
    selectedIssueId := some 3 }

/-- Witness for C10: the concrete light-theme state round-trips and the
invalid-JSON branch leaves the default state unchanged, obtained from the
theorem at that input. -/
theorem ui_prefs_roundtrip_witness :
    (restorePrefs (some (persistedPrefs demoUIState)) defaultUIState).theme =
      demoUIState.theme ∧
    (restorePrefs (some (persistedPrefs demoUIState)) defaultUIState).editorFontSize =
      demoUIState.editorFontSize ∧
    restorePrefs none defaultUIState = defaultUIState :=
  ui_prefs_roundtrip demoUIState "light" 16 rfl rfl
